import Mathlib

/-!
Verification of the execution-routing layer of the repository:
the response codec (`mindsdb/utilities/json_encoder.py`), the ML handler
dispatch factory (`mindsdb/integrations/handlers_client/ml_client_factory.py`)
and the HTTP predict endpoint (`mindsdb/api/http/namespaces/projects.py`),
shallowly embedded in Lean.

Python functions that can raise are embedded with `Except PyError`;
Python `None` becomes `Option.none`; Python dicts become association lists
preserving insertion order.
-/

set_option autoImplicit false

/-- Equality of `Except` values is decidable when it is on both sides. -/
instance instDecEqExcept {ε α : Type} [DecidableEq ε] [DecidableEq α] :
    DecidableEq (Except ε α) := fun a b =>
  match a, b with
  | .ok x, .ok y =>
    if h : x = y then .isTrue (by rw [h])
    else .isFalse (fun hc => h (by cases hc; rfl))
  | .ok _, .error _ => .isFalse (fun hc => Except.noConfusion hc)
  | .error _, .ok _ => .isFalse (fun hc => Except.noConfusion hc)
  | .error e, .error f =>
    if h : e = f then .isTrue (by rw [h])
    else .isFalse (fun hc => h (by cases hc; rfl))

/-- Python exceptions that the embedded code can raise. -/
inductive PyError where
  | valueError (msg : String)
  | typeError (msg : String)
  | keyError (key : String)
  | indexError
  | configurationError (engine : String)
deriving DecidableEq

/-- A JSON value as produced by the response codec (the codomain of
`CustomJSONEncoder.default`): a primitive, with numeric payloads carried
exactly (`Rat` stands in for Python floats; rounding is not modelled). -/
inductive JsonValue where
  | null
  | str (s : String)
  | bool (b : Bool)
  | int (v : Int)
  | float (v : Rat)
deriving DecidableEq

/-- The universe of Python objects reaching `CustomJSONEncoder.default`
(objects the standard JSON encoder could not serialise):
the NaN / NaT null sentinels, `datetime.timedelta`, `datetime.datetime`,
`datetime.date`, the numpy scalar wrappers, `decimal.Decimal`, any other
object carrying its `str()` representation — and array-like values
(`np.ndarray`, `pd.Series`), which the base encoder also hands to
`default`. An array is remembered by what the codec's first line inspects:
the elementwise result of `pd.isnull` on its items (`nulls`), plus its
textual representation. -/
inductive PyObj where
  | pyNaN
  | pyNaT
  | timedeltaV (days : Int) (seconds : Nat) (microseconds : Nat)
  | datetimeV (year month day hour minute second microsecond : Nat)
  | dateV (year month day : Nat)
  | npBoolV (b : Bool)
  | npIntV (width : Nat) (v : Int)
  | npFloatV (width : Nat) (v : Rat)
  | decimalV (v : Rat)
  | otherV (s : String)
  | ndarrayV (nulls : List Bool) (reprStr : String)
deriving DecidableEq

/-- What `pd.isnull(obj)` evaluates to: a scalar boolean, or — for an
array-like argument — the elementwise boolean array. -/
inductive PdIsnullResult where
  | scalar (b : Bool)
  | boolArray (nulls : List Bool)
deriving DecidableEq

/-- `pd.isnull(obj)`: true for the missing-value sentinels NaN and NaT,
false for the other scalars, and the elementwise boolean array for an
array-like argument. -/
def pdIsnull : PyObj → PdIsnullResult
  | .pyNaN => .scalar true
  | .pyNaT => .scalar true
  | .ndarrayV nulls _ => .boolArray nulls
  | _ => .scalar false

/-- Python truthiness of a `pd.isnull` result, as the source's
`if pd.isnull(obj):` evaluates it: a scalar bool is itself; a boolean
array of more than one element raises
`ValueError: The truth value of an array with more than one element is
ambiguous` (numpy `__bool__`); a one-element array is its element and an
empty array is falsy (numpy 1.x). -/
def pyTruth : PdIsnullResult → Except PyError Bool
  | .scalar b => .ok b
  | .boolArray nulls =>
    if 1 < nulls.length then
      .error (.valueError
        "The truth value of an array with more than one element is ambiguous. Use a.any() or a.all()")
    else .ok (nulls.getD 0 false)

/-- Whether `obj` is array-like (the inputs on which truthiness of
`pd.isnull(obj)` can raise). -/
def isArrayLike : PyObj → Bool
  | .ndarrayV _ _ => true
  | _ => false

/-- The scalar truth value of `pd.isnull obj` where one exists
(false on array-likes; used to state which earlier rule matched). -/
def pdIsNullScalar (obj : PyObj) : Bool :=
  match pdIsnull obj with
  | .scalar b => b
  | .boolArray _ => false

/-- `isinstance(obj, timedelta)`. -/
def isinstanceTimedelta : PyObj → Bool
  | .timedeltaV _ _ _ => true
  | _ => false

/-- `isinstance(obj, datetime)`; note `pd.NaT` is an instance of `datetime`. -/
def isinstanceDatetime : PyObj → Bool
  | .datetimeV _ _ _ _ _ _ _ => true
  | .pyNaT => true
  | _ => false

/-- `isinstance(obj, date)`; a `datetime` (and `pd.NaT`) is also a `date`,
which is why the source checks `datetime` first. -/
def isinstanceDate : PyObj → Bool
  | .datetimeV _ _ _ _ _ _ _ => true
  | .dateV _ _ _ => true
  | .pyNaT => true
  | _ => false

/-- `isinstance(obj, np.bool_)`. -/
def isinstanceNpBool : PyObj → Bool
  | .npBoolV _ => true
  | _ => false

/-- `isinstance(obj, (np.int8, np.int16, np.int32, np.int64))`. -/
def isinstanceNpInt : PyObj → Bool
  | .npIntV _ _ => true
  | _ => false

/-- `isinstance(obj, (np.float16, np.float32, np.float64, Decimal))`. -/
def isinstanceNpFloatOrDecimal : PyObj → Bool
  | .npFloatV _ _ => true
  | .decimalV _ => true
  | _ => false

/-- Left-pad the decimal representation of `n` with zeros to width `w`
(Python `"%0wd" % n` for naturals). -/
def padZeros (w n : Nat) : String :=
  let s := toString n
  String.mk (List.replicate (w - s.length) '0') ++ s

/-- `str(timedelta(...))` as CPython's `timedelta.__str__` computes it:
`[D day(s), ]H:MM:SS[.ffffff]`. -/
def timedeltaStr (days : Int) (seconds microseconds : Nat) : String :=
  let hh := seconds / 3600
  let mm := seconds % 3600 / 60
  let ss := seconds % 60
  let base := toString hh ++ ":" ++ padZeros 2 mm ++ ":" ++ padZeros 2 ss
  let withDays :=
    if days ≠ 0 then
      toString days ++ " day" ++ (if days.natAbs ≠ 1 then "s" else "") ++ ", " ++ base
    else base
  if microseconds ≠ 0 then withDays ++ "." ++ padZeros 6 microseconds else withDays

/-- `obj.strftime("%Y-%m-%d %H:%M:%S.%f")`. -/
def strftimeDatetime (y mo d h mi s us : Nat) : String :=
  padZeros 4 y ++ "-" ++ padZeros 2 mo ++ "-" ++ padZeros 2 d ++ " " ++
    padZeros 2 h ++ ":" ++ padZeros 2 mi ++ ":" ++ padZeros 2 s ++ "." ++ padZeros 6 us

/-- `obj.strftime("%Y-%m-%d")`. -/
def strftimeDate (y mo d : Nat) : String :=
  padZeros 4 y ++ "-" ++ padZeros 2 mo ++ "-" ++ padZeros 2 d

/-- The string produced if the `timedelta` rule fires on `obj`. -/
def timedeltaStrOf : PyObj → String
  | .timedeltaV d s us => timedeltaStr d s us
  | _ => ""

/-- The string produced if the `datetime` rule fires on `obj`. -/
def strftimeDatetimeOf : PyObj → String
  | .datetimeV y mo d h mi s us => strftimeDatetime y mo d h mi s us
  | _ => ""

/-- The string produced if the `date` rule fires on `obj` (it formats only
the date component, also when `obj` is a full `datetime`). -/
def strftimeDateOf : PyObj → String
  | .datetimeV y mo d _ _ _ _ => strftimeDate y mo d
  | .dateV y mo d => strftimeDate y mo d
  | _ => ""

/-- `bool(obj)` on an `np.bool_`. -/
def boolValOf : PyObj → Bool
  | .npBoolV b => b
  | _ => false

/-- `int(obj)` on a numpy integer wrapper. -/
def intValOf : PyObj → Int
  | .npIntV _ v => v
  | _ => 0

/-- `float(obj)` on a numpy float wrapper or a `Decimal`. -/
def floatValOf : PyObj → Rat
  | .npFloatV _ v => v
  | .decimalV v => v
  | _ => 0

/-- `str(obj)` for the universal fallback rule. -/
def pyStr : PyObj → String
  | .otherV s => s
  | .ndarrayV _ r => r
  | _ => ""

/-- `CustomJSONEncoder.default` (src/mindsdb/utilities/json_encoder.py,
lines 10-26): the first line evaluates the truthiness of `pd.isnull(obj)`
— which itself raises on a multi-element array-like — then the ordered
chain of `isinstance` checks, first match winning, with the final
`return str(obj)` fallback; every branch is a plain `return`. -/
def CustomJSONEncoder.default (obj : PyObj) : Except PyError JsonValue := do
  let isNull ← pyTruth (pdIsnull obj)
  if isNull then .ok .null
  else if isinstanceTimedelta obj then .ok (.str (timedeltaStrOf obj))
  else if isinstanceDatetime obj then .ok (.str (strftimeDatetimeOf obj))
  else if isinstanceDate obj then .ok (.str (strftimeDateOf obj))
  else if isinstanceNpBool obj then .ok (.bool (boolValOf obj))
  else if isinstanceNpInt obj then .ok (.int (intValOf obj))
  else if isinstanceNpFloatOrDecimal obj then .ok (.float (floatValOf obj))
  else .ok (.str (pyStr obj))

/-- True when one of the rules preceding the universal fallback matches. -/
def matchedByEarlierRule (obj : PyObj) : Bool :=
  pdIsNullScalar obj || isinstanceTimedelta obj || isinstanceDatetime obj ||
    isinstanceDate obj || isinstanceNpBool obj || isinstanceNpInt obj ||
    isinstanceNpFloatOrDecimal obj

/-- The standard Base64 alphabet. -/
def b64Alphabet : List Char :=
  "ABCDEFGHIJKLMNOPQRSTUVWXYZabcdefghijklmnopqrstuvwxyz0123456789+/".toList

/-- The Base64 digit for a sextet. -/
def b64Char (n : Nat) : Char := b64Alphabet.getD n '='

/-- `base64.b64encode` on a byte sequence, decoded to an ASCII string:
groups of three bytes become four sextet digits, with `=` padding. -/
def b64encode : List Nat → String
  | [] => ""
  | [a] =>
    String.mk [b64Char (a / 4), b64Char (a % 4 * 16), '=', '=']
  | [a, b] =>
    String.mk [b64Char (a / 4), b64Char (a % 4 * 16 + b / 16), b64Char (b % 16 * 4), '=']
  | a :: b :: c :: rest =>
    String.mk [b64Char (a / 4), b64Char (a % 4 * 16 + b / 16),
      b64Char (b % 16 * 4 + c / 64), b64Char (c % 64)] ++ b64encode rest

/-- Inputs to `json_serialiser`: `bytes`, `bytearray`, or a value of any
other type, remembered with its Python type name. -/
inductive BinInput where
  | bytesV (bs : List Nat)
  | bytearrayV (bs : List Nat)
  | otherOf (typeName : String)
deriving DecidableEq

/-- The right operand of the `+` in the raise statement. -/
inductive PyVal where
  | strV (s : String)
  | typeObjV (typeName : String)
deriving DecidableEq

/-- Python `str.__add__`: concatenating a `str` with a non-`str` (here a
type object, the result of `type(obj)`) raises `TypeError`. -/
def pyStrAdd (lhs : String) : PyVal → Except PyError String
  | .strV s => .ok (lhs ++ s)
  | .typeObjV _ => .error (.typeError "can only concatenate str (not \"type\") to str")

/-- `json_serialiser` (src/mindsdb/utilities/json_encoder.py, lines 29-37):
byte sequences are Base64-encoded; otherwise the code attempts
`raise ValueError('No encoding handler for data type ' + type(byte_obj))`,
whose message expression is evaluated first. -/
def json_serialiser : BinInput → Except PyError String
  | .bytesV bs => .ok (b64encode bs)
  | .bytearrayV bs => .ok (b64encode bs)
  | .otherOf t => do
    let msg ← pyStrAdd "No encoding handler for data type " (.typeObjV t)
    Except.error (.valueError msg)

/-! ## The ML handler dispatch factory
(src/mindsdb/integrations/handlers_client/ml_client_factory.py) -/

/-- A remote service endpoint, one entry of the registry's candidate list.
Host and port are kept as strings, as the environment-variable fallback
path yields strings and the code treats both paths alike. -/
structure Endpoint where
  host : String
  port : String
deriving DecidableEq

/-- The registry's `/discover` response: a mapping (insertion-ordered dict)
from engine name to the ordered list of candidate endpoints. -/
abbrev RegistryResponse : Type := List (String × List Endpoint)

/-- Python `dict` lookup `res[engine]` as an `Option`. -/
def dictGet (res : RegistryResponse) (k : String) : Option (List Endpoint) :=
  (res.find? (fun p => p.1 == k)).map (fun p => p.2)

/-- The process environment and registry behaviour visible to the factory:
the `REGISTRY_URL`, `MINDSDB_ML_SERVICE_HOST` and `MINDSDB_ML_SERVICE_PORT`
environment variables, and what the registry would answer
(`none` models a transport failure, absorbed by the helper). -/
structure MLEnv where
  registry_url : Option String
  registry_response : Option RegistryResponse
  ml_service_host : Option String
  ml_service_port : Option String

/-- Modelled from the spec: `discover_services`
(mindsdb.integrations.libs.handler_helpers, not under src/) issues the
synchronous `GET {registry}/discover` lookup and absorbs any transport
failure, returning a falsy (empty) result in that case, per spec §4.1:
transport failures "must not propagate as an exception" and are "treated
identically to not found". -/
def discover_services (env : MLEnv) : RegistryResponse :=
  env.registry_response.getD []

/-- The identity of a registered local implementation class:
its `__name__` and `__module__`. -/
structure HandlerClass where
  className : String
  moduleName : String
deriving DecidableEq

/-- `MLClientFactory` after `__init__`: it stores the wrapped handler class
and the engine name (and copies the class's `__name__`/`__module__` onto
itself, exposed below as `MLClientFactory.name` / `.moduleName`). -/
structure MLClientFactory where
  handler_class : HandlerClass
  engine : String
deriving DecidableEq

/-- `self.__name__ = self.handler_class.__name__` in `__init__`. -/
def MLClientFactory.name (f : MLClientFactory) : String :=
  f.handler_class.className

/-- `self.__module__ = self.handler_class.__module__` in `__init__`. -/
def MLClientFactory.moduleName (f : MLClientFactory) : String :=
  f.handler_class.moduleName

/-- `MLClientFactory.discover_service` (lines 41-47): returns falsy (`none`)
when `REGISTRY_URL` is unset or empty, or when `discover_services` returned
a falsy result; otherwise evaluates `res[engine][0]`, which raises
`KeyError` when the engine is absent from the response and `IndexError`
when its candidate list is empty. -/
def MLClientFactory.discover_service (env : MLEnv) (engine : String) :
    Except PyError (Option Endpoint) :=
  match env.registry_url with
  | none => .ok none
  | some url =>
    if url = "" then .ok none
    else
      let res := discover_services env
      if res.isEmpty then .ok none
      else
        match dictGet res engine with
        | none => .error (.keyError engine)
        | some [] => .error .indexError
        | some (e :: _) => .ok (some e)

/-- The opaque engine-storage handle; the factory reads `integration_id`. -/
structure EngineStorage where
  integration_id : Nat
deriving DecidableEq

/-- The opaque model-storage handle; the factory reads `predictor_id`. -/
structure ModelStorage where
  predictor_id : Nat
deriving DecidableEq

/-- Extra keyword arguments, an insertion-ordered dict of strings. -/
abbrev Kwargs : Type := List (String × String)

/-- Python dict assignment `kw[k] = v`: update in place when the key
exists, else append. -/
def kwargsSet (kw : Kwargs) (k v : String) : Kwargs :=
  if kw.any (fun p => p.1 == k) then
    kw.map (fun p => if p.1 == k then (k, v) else p)
  else kw ++ [(k, v)]

/-- Dict lookup `kw.get(k)`. -/
def kwargsGet (kw : Kwargs) (k : String) : Option String :=
  (kw.find? (fun p => p.1 == k)).map (fun p => p.2)

/-- The object `MLClientFactory.__call__` returns: either an instance of
the wrapped local handler class (constructed with the two storage handles
and the kwargs, forwarded unchanged), or an `MLClientGRPC` remote proxy
bound to a host and port, the `integration_id` and `predictor_id` taken
from the storage handles, and the kwargs extended with the engine name. -/
inductive HandlerInstance where
  | localH (cls : HandlerClass) (engine_storage : EngineStorage)
      (model_storage : ModelStorage) (kwargs : Kwargs)
  | remoteH (host : String) (port : String) (integration_id : Nat)
      (predictor_id : Nat) (kwargs : Kwargs)
deriving DecidableEq

/-- Whether the returned instance is a local in-process handler. -/
def HandlerInstance.isLocal : HandlerInstance → Bool
  | .localH _ _ _ _ => true
  | .remoteH _ _ _ _ _ => false

/-- The class `__name__` a caller observes on the returned instance: the
registered implementation's name on the local path; `MLClientGRPC` — the
gRPC client class imported at the top of the source file — on the remote
path (the proxy's constructor receives host, port, ids, engine and kwargs,
never the registered class's identity). -/
def HandlerInstance.exposedClassName : HandlerInstance → String
  | .localH cls _ _ _ => cls.className
  | .remoteH _ _ _ _ _ => "MLClientGRPC"

/-- The `__module__` a caller observes on the returned instance. -/
def HandlerInstance.exposedModuleName : HandlerInstance → String
  | .localH cls _ _ _ => cls.moduleName
  | .remoteH _ _ _ _ _ => "mindsdb.integrations.handlers_client.ml_grpc_client"

/-- The kwargs carried by the returned instance. -/
def HandlerInstance.kwargsOf : HandlerInstance → Kwargs
  | .localH _ _ _ kw => kw
  | .remoteH _ _ _ _ kw => kw

/-- `MLClientFactory.__call__` (lines 18-39): resolve an endpoint via
`discover_service` (whose exceptions propagate), else fall back to the
`MINDSDB_ML_SERVICE_HOST`/`PORT` environment variables; with both a host
and a port, return the remote gRPC client, otherwise construct the wrapped
local handler class. -/
def MLClientFactory.call (f : MLClientFactory) (env : MLEnv)
    (engine_storage : EngineStorage) (model_storage : ModelStorage)
    (kwargs : Kwargs) : Except PyError HandlerInstance := do
  let service_info ← MLClientFactory.discover_service env f.engine
  let hp : Option String × Option String :=
    match service_info with
    | some ep => (some ep.host, some ep.port)
    | none => (env.ml_service_host, env.ml_service_port)
  match hp with
  | (some h, some p) =>
    .ok (.remoteH h p engine_storage.integration_id model_storage.predictor_id
      (kwargsSet kwargs "engine" f.engine))
  | (some _, none) => .ok (.localH f.handler_class engine_storage model_storage kwargs)
  | (none, _) => .ok (.localH f.handler_class engine_storage model_storage kwargs)

/-- Modelled from the spec: the engine-registration table and the
`ConfigurationError` of spec §4.2 steps 4-5 live outside src/ (in the code
that builds an `MLClientFactory` from the registry of local engine
implementations). `dispatch` follows the spec's resolution order — remote
endpoint first (embedding `MLClientFactory.__call__`'s logic from src),
then the local registration table, else a fatal `ConfigurationError`. -/
def dispatch (env : MLEnv) (table : List (String × HandlerClass))
    (engine : String) (engine_storage : EngineStorage)
    (model_storage : ModelStorage) (kwargs : Kwargs) :
    Except PyError HandlerInstance := do
  let service_info ← MLClientFactory.discover_service env engine
  let hp : Option String × Option String :=
    match service_info with
    | some ep => (some ep.host, some ep.port)
    | none => (env.ml_service_host, env.ml_service_port)
  match hp with
  | (some h, some p) =>
    .ok (.remoteH h p engine_storage.integration_id model_storage.predictor_id
      (kwargsSet kwargs "engine" engine))
  | _ =>
    match (table.find? (fun pr => pr.1 == engine)) with
    | some pr => .ok (.localH pr.2 engine_storage model_storage kwargs)
    | none => .error (.configurationError engine)

/-! ## The HTTP predict endpoint
(src/mindsdb/api/http/namespaces/projects.py, `ModelPredict.post`) -/

/-- Python `name.split('.')` on a string viewed as its character list:
always returns at least one (possibly empty) segment. -/
def pySplitDot : List Char → List (List Char)
  | [] => [[]]
  | c :: rest =>
    if c = '.' then [] :: pySplitDot rest
    else
      match pySplitDot rest with
      | s :: ss => (c :: s) :: ss
      | [] => [[c]]

/-- Python `s.isdigit()` over ASCII strings: non-empty and all digits. -/
def pyIsdigit (s : List Char) : Bool :=
  !s.isEmpty && s.all Char.isDigit

/-- Python `int(s)` on a digit string. -/
def pyIntOfDigits (s : List Char) : Nat :=
  s.foldl (fun a c => a * 10 + (c.toNat - 48)) 0

/-- Lines 58-63 of `ModelPredict.post`: split the model name on dots; when
there is more than one segment and the last is all digits, that last
segment becomes the integer version and the name is the remaining segments
rejoined with dots; otherwise the name passes through with no version. -/
def parseModelVersion (model_name : List Char) : List Char × Option Nat :=
  let parts := pySplitDot model_name
  if parts.length > 1 && pyIsdigit (parts.getLastD []) then
    (List.intercalate ['.'] parts.dropLast, some (pyIntOfDigits (parts.getLastD [])))
  else (model_name, none)

/-- A pandas DataFrame as returned by `predict`: named columns and rows of
cells. -/
structure DataFrame where
  columns : List String
  rows : List (List JsonValue)
deriving DecidableEq

/-- A row-oriented record, as in `df.to_dict('records')`. -/
abbrev RecordRow : Type := List (String × JsonValue)

/-- `predictions.to_dict('records')`: one key-value record per row. -/
def DataFrame.toDictRecords (df : DataFrame) : List RecordRow :=
  df.rows.map (fun r => df.columns.zip r)

/-- Modelled from the spec: the project datanode (`session.datahub.get`'s
result, not under src/) — the resolved data source for a project, exposing
`predict(model_name, data, version, params)` which returns a DataFrame. -/
structure ProjectDatanode where
  predictFn : List Char → List RecordRow → Option Nat → Option RecordRow → DataFrame

/-- The HTTP response of the endpoint: flask-restx returns the handler's
value with status 200, and `abort(code, msg)` produces an error response. -/
inductive HttpResponse where
  | ok (records : List RecordRow)
  | err (status : Nat) (msg : String)
deriving DecidableEq

/-- The numeric status of a response (a successful return is a 200). -/
def HttpResponse.statusCode : HttpResponse → Nat
  | .ok _ => 200
  | .err s _ => s

/-- `ModelPredict.post` (lines 55-81): parse the optional trailing version
from the model name, resolve the project datanode via the session's
datahub (abstracted as the `hub` argument, `none` for an unknown or
unresolvable project), `abort(500, 'Project not found: …')` when it is
`none`, else respond with the predictions as row-oriented records. -/
def ModelPredict.post (hub : String → Option ProjectDatanode)
    (project_name : String) (model_name : List Char)
    (data : List RecordRow) (params : Option RecordRow) : HttpResponse :=
  let parsed := parseModelVersion model_name
  match hub project_name with
  | none => .err 500 ("Project not found: " ++ project_name)
  | some dn => .ok (DataFrame.toDictRecords (dn.predictFn parsed.1 data parsed.2 params))

/-! ## Helper lemmas -/

theorem pySplitDot_ne_nil (l : List Char) : pySplitDot l ≠ [] := by
  cases l with
  | nil => simp [pySplitDot]
  | cons c rest =>
    simp only [pySplitDot]
    split
    · simp
    · split <;> simp

theorem length_pySplitDot_gt_one_iff (l : List Char) :
    1 < (pySplitDot l).length ↔ '.' ∈ l := by
  induction l with
  | nil => simp [pySplitDot]
  | cons c rest ih =>
    by_cases h : c = '.'
    · subst h
      simp only [pySplitDot, if_pos rfl, List.mem_cons]
      cases hr : pySplitDot rest with
      | nil => exact absurd hr (pySplitDot_ne_nil rest)
      | cons s ss => simp
    · simp only [pySplitDot, if_neg h, List.mem_cons]
      cases hr : pySplitDot rest with
      | nil => exact absurd hr (pySplitDot_ne_nil rest)
      | cons s ss =>
        rw [hr] at ih
        simp only [List.length_cons] at ih ⊢
        constructor
        · intro hl
          exact Or.inr (ih.mp hl)
        · intro hm
          rcases hm with hm | hm
          · exact absurd hm.symm h
          · exact ih.mpr hm

theorem pyIsdigit_iff (s : List Char) :
    pyIsdigit s = true ↔ s ≠ [] ∧ ∀ c ∈ s, c.isDigit = true := by
  cases s <;> simp [pyIsdigit]

theorem kwargsGet_map_set (kw : Kwargs) (k v : String)
    (h : kw.any (fun p => p.1 == k) = true) :
    kwargsGet (kw.map (fun p => if p.1 == k then (k, v) else p)) k = some v := by
  induction kw with
  | nil => simp at h
  | cons hd tl ih =>
    simp only [List.any_cons, Bool.or_eq_true] at h
    by_cases hh : hd.1 == k
    · simp [kwargsGet, List.find?, hh]
    · rcases h with h1 | h2
      · exact absurd h1 hh
      · simp only [List.map_cons, if_neg hh, kwargsGet, List.find?] at *
        simp only [hh]
        exact ih h2

theorem kwargsGet_append_new (kw : Kwargs) (k v : String)
    (h : kw.any (fun p => p.1 == k) = false) :
    kwargsGet (kw ++ [(k, v)]) k = some v := by
  induction kw with
  | nil => simp [kwargsGet, List.find?]
  | cons hd tl ih =>
    simp only [List.any_cons, Bool.or_eq_false_iff] at h
    simp only [List.cons_append, kwargsGet, List.find?, h.1]
    exact ih h.2

theorem kwargsGet_kwargsSet (kw : Kwargs) (k v : String) :
    kwargsGet (kwargsSet kw k v) k = some v := by
  unfold kwargsSet
  by_cases h : kw.any (fun p => p.1 == k) = true
  · rw [if_pos h]
    exact kwargsGet_map_set kw k v h
  · rw [if_neg h]
    exact kwargsGet_append_new kw k v (Bool.not_eq_true _ ▸ Bool.of_not_eq_true h)

/-! ## The claims -/

/-- C5 counterexample: the general response codec is not total — on an
array-like input of more than one element (here a two-element `np.ndarray`,
which the base JSON encoder hands to `default` like any other
non-serialisable object), the very first check `if pd.isnull(obj):`
raises `ValueError`, because `pd.isnull` returns an elementwise boolean
array whose truth value is ambiguous. -/
theorem c5_counterexample_ndarray :
    CustomJSONEncoder.default (.ndarrayV [false, false] "[1 2]") =
      .error (.valueError
        "The truth value of an array with more than one element is ambiguous. Use a.any() or a.all()") := by
  decide

/-- C5 amended: on every non-array-like input the codec returns an encoded
result and never raises, and any such value not matched by the preceding
rules is stringified by the universal fallback rule; but on an array-like
input with more than one element the first check `pd.isnull(obj)` raises
`ValueError` (ambiguous truth value of a boolean array), so the codec is
not total over every input type. -/
theorem c5_amended_totality :
    (∀ obj, isArrayLike obj = false → ∃ v, CustomJSONEncoder.default obj = .ok v) ∧
    (∀ obj, isArrayLike obj = false → matchedByEarlierRule obj = false →
      CustomJSONEncoder.default obj = .ok (.str (pyStr obj))) ∧
    (∀ nulls r, 1 < nulls.length →
      CustomJSONEncoder.default (.ndarrayV nulls r) =
        .error (.valueError
          "The truth value of an array with more than one element is ambiguous. Use a.any() or a.all()")) := by
  refine ⟨?_, ?_, ?_⟩
  · intro obj harr
    cases obj <;> first
      | exact ⟨_, rfl⟩
      | simp [isArrayLike] at harr
  · intro obj harr h
    cases obj <;>
      simp_all [matchedByEarlierRule, CustomJSONEncoder.default, pdIsnull,
        pdIsNullScalar, pyTruth, isArrayLike, pyStr, Bind.bind, Except.bind,
        isinstanceTimedelta, isinstanceDatetime, isinstanceDate, isinstanceNpBool,
        isinstanceNpInt, isinstanceNpFloatOrDecimal]
  · intro nulls r hlen
    simp [CustomJSONEncoder.default, pdIsnull, pyTruth, hlen, Bind.bind, Except.bind]

theorem c5_amended_witness :
    isArrayLike (.otherV "<obj 0x1>") = false ∧
    matchedByEarlierRule (.otherV "<obj 0x1>") = false ∧
    CustomJSONEncoder.default (.otherV "<obj 0x1>") = .ok (.str "<obj 0x1>") :=
  ⟨by decide, by decide,
    c5_amended_totality.2.1 (.otherV "<obj 0x1>") (by decide) (by decide)⟩

/-- C6: the general response codec evaluates its rules in order, first
match winning, and produces exactly the specified encodings: the null
sentinels encode to null; a timedelta to its canonical string; a datetime
to `YYYY-MM-DD HH:MM:SS.ffffff` (six fractional digits, checked on the
concrete example `2023-05-01 10:30:00.123456`); a date to `YYYY-MM-DD`;
`np.bool_` to a native boolean; every signed numpy integer width to a
native integer; numpy floats and `Decimal` to a native float. The last
conjunct records that a datetime also matches the later date rule, so the
datetime encoding is only reached because the rules fire in order. -/
theorem c6_codec_rules :
    CustomJSONEncoder.default .pyNaN = .ok .null ∧
    CustomJSONEncoder.default .pyNaT = .ok .null ∧
    (∀ d s us, CustomJSONEncoder.default (.timedeltaV d s us) =
      .ok (.str (timedeltaStr d s us))) ∧
    (∀ y mo da h mi se us, CustomJSONEncoder.default (.datetimeV y mo da h mi se us) =
      .ok (.str (strftimeDatetime y mo da h mi se us))) ∧
    CustomJSONEncoder.default (.datetimeV 2023 5 1 10 30 0 123456) =
      .ok (.str "2023-05-01 10:30:00.123456") ∧
    (∀ y mo da, CustomJSONEncoder.default (.dateV y mo da) =
      .ok (.str (strftimeDate y mo da))) ∧
    (∀ b, CustomJSONEncoder.default (.npBoolV b) = .ok (.bool b)) ∧
    (∀ w v, CustomJSONEncoder.default (.npIntV w v) = .ok (.int v)) ∧
    (∀ w v, CustomJSONEncoder.default (.npFloatV w v) = .ok (.float v)) ∧
    (∀ v, CustomJSONEncoder.default (.decimalV v) = .ok (.float v)) ∧
    (∀ y mo da h mi se us, isinstanceDate (.datetimeV y mo da h mi se us) = true) := by
  refine ⟨rfl, rfl, fun d s us => rfl, fun y mo da h mi se us => rfl, by decide,
    fun y mo da => rfl, fun b => rfl, fun w v => rfl, fun w v => rfl, fun v => rfl,
    fun y mo da h mi se us => rfl⟩

/-- C7: the strict binary-transport encoder maps every `bytes`/`bytearray`
to its Base64 ASCII form (`b"abc"` to `"YWJj"`), but on any other input the
intended `ValueError` naming the offending type is never raised: evaluating
the message expression `'No encoding handler for data type ' + type(byte_obj)`
itself raises `TypeError: can only concatenate str (not "type") to str`,
whatever the input's type. -/
theorem c7_binary_codec_bug :
    (∀ bs, json_serialiser (.bytesV bs) = .ok (b64encode bs)) ∧
    (∀ bs, json_serialiser (.bytearrayV bs) = .ok (b64encode bs)) ∧
    json_serialiser (.bytesV [97, 98, 99]) = .ok "YWJj" ∧
    (∀ t, json_serialiser (.otherOf t) =
      .error (.typeError "can only concatenate str (not \"type\") to str")) := by
  refine ⟨fun bs => rfl, fun bs => rfl, by decide, fun t => rfl⟩

/-- C1: for every engine with a resolvable remote endpoint — discovery
returns one, or both fallback environment values are set — `__call__`
returns the remote proxy bound to exactly that host and port together with
the identity derived from the storage handles (`integration_id`,
`predictor_id`) and the engine name (set into the kwargs), and remote
proxies are never local handler instances, even though a local
implementation class is always registered on the factory. -/
theorem c1_remote_endpoint_dispatch (f : MLClientFactory) (env : MLEnv)
    (es : EngineStorage) (ms : ModelStorage) (kw : Kwargs) :
    (∀ ep, MLClientFactory.discover_service env f.engine = .ok (some ep) →
      f.call env es ms kw = .ok (.remoteH ep.host ep.port es.integration_id
        ms.predictor_id (kwargsSet kw "engine" f.engine))) ∧
    (∀ h p, MLClientFactory.discover_service env f.engine = .ok none →
      env.ml_service_host = some h → env.ml_service_port = some p →
      f.call env es ms kw = .ok (.remoteH h p es.integration_id
        ms.predictor_id (kwargsSet kw "engine" f.engine))) ∧
    (∀ k2, kwargsGet (kwargsSet k2 "engine" f.engine) "engine" = some f.engine) ∧
    (∀ h p i pid k2, HandlerInstance.isLocal (.remoteH h p i pid k2) = false) := by
  refine ⟨?_, ?_, fun k2 => kwargsGet_kwargsSet k2 "engine" f.engine,
    fun h p i pid k2 => rfl⟩
  · intro ep hd
    simp only [MLClientFactory.call, hd]
    rfl
  · intro h p hd hh hp
    simp only [MLClientFactory.call, hd, hh, hp]
    rfl

theorem c1_witness :
    MLClientFactory.discover_service
        ⟨some "http://r", some [("demo", [⟨"10.0.0.5", "9000"⟩])], none, none⟩
        "demo" = .ok (some ⟨"10.0.0.5", "9000"⟩) ∧
    MLClientFactory.call ⟨⟨"DemoHandler", "demo.module"⟩, "demo"⟩
        ⟨some "http://r", some [("demo", [⟨"10.0.0.5", "9000"⟩])], none, none⟩
        ⟨1⟩ ⟨2⟩ [] =
      .ok (.remoteH "10.0.0.5" "9000" 1 2 (kwargsSet [] "engine" "demo")) :=
  ⟨by decide,
    (c1_remote_endpoint_dispatch ⟨⟨"DemoHandler", "demo.module"⟩, "demo"⟩
        ⟨some "http://r", some [("demo", [⟨"10.0.0.5", "9000"⟩])], none, none⟩
        ⟨1⟩ ⟨2⟩ []).1 ⟨"10.0.0.5", "9000"⟩ (by decide)⟩

/-- C2: with no registry address configured (unset, or the falsy empty
string) and neither fallback environment value set, `__call__` constructs
the statically registered local implementation class, forwarding the two
storage handles and the extra keyword arguments unchanged. -/
theorem c2_local_dispatch (f : MLClientFactory) (env : MLEnv)
    (es : EngineStorage) (ms : ModelStorage) (kw : Kwargs)
    (hreg : env.registry_url = none ∨ env.registry_url = some "")
    (hh : env.ml_service_host = none) (hp : env.ml_service_port = none) :
    f.call env es ms kw = .ok (.localH f.handler_class es ms kw) := by
  have hd : MLClientFactory.discover_service env f.engine = .ok none := by
    rcases hreg with hr | hr <;> simp [MLClientFactory.discover_service, hr]
  simp only [MLClientFactory.call, hd, hh, hp]
  rfl

theorem c2_witness :
    MLClientFactory.call ⟨⟨"DemoHandler", "demo.module"⟩, "demo"⟩
        ⟨none, none, none, none⟩ ⟨1⟩ ⟨2⟩ [("a", "b")] =
      .ok (.localH ⟨"DemoHandler", "demo.module"⟩ ⟨1⟩ ⟨2⟩ [("a", "b")]) :=
  c2_local_dispatch ⟨⟨"DemoHandler", "demo.module"⟩, "demo"⟩
    ⟨none, none, none, none⟩ ⟨1⟩ ⟨2⟩ [("a", "b")] (Or.inl rfl) rfl rfl

/-- C3 counterexample: a registry response that is non-empty but has no
entry for the requested engine makes `discover_service` raise `KeyError`
(from `res[engine][0]`), and the exception propagates through `__call__`
to the caller — refuting that a lookup failure is always treated as
"not found". -/
theorem c3_counterexample_keyerror :
    MLClientFactory.discover_service
        ⟨some "http://r", some [("other", [⟨"h", "1"⟩])], none, none⟩ "demo" =
      .error (.keyError "demo") ∧
    MLClientFactory.call ⟨⟨"DemoHandler", "demo.module"⟩, "demo"⟩
        ⟨some "http://r", some [("other", [⟨"h", "1"⟩])], none, none⟩ ⟨1⟩ ⟨2⟩ [] =
      .error (.keyError "demo") := by
  constructor <;> decide

/-- C3 amended: `discover_service` returns "not found" when the registry is
unconfigured (unset or empty URL), the transport fails, or the response is
empty; when the response is non-empty it returns the first candidate for
the requested engine if one exists — but a non-empty response lacking the
engine raises `KeyError`, and an engine mapped to an empty candidate list
raises `IndexError`, both propagating to the caller. -/
theorem c3_amended_locator (env : MLEnv) (engine : String) :
    (env.registry_url = none →
      MLClientFactory.discover_service env engine = .ok none) ∧
    (env.registry_url = some "" →
      MLClientFactory.discover_service env engine = .ok none) ∧
    (∀ url, env.registry_url = some url → url ≠ "" → env.registry_response = none →
      MLClientFactory.discover_service env engine = .ok none) ∧
    (∀ url, env.registry_url = some url → url ≠ "" → env.registry_response = some [] →
      MLClientFactory.discover_service env engine = .ok none) ∧
    (∀ url res, env.registry_url = some url → url ≠ "" →
      env.registry_response = some res → res ≠ [] → dictGet res engine = none →
      MLClientFactory.discover_service env engine = .error (.keyError engine)) ∧
    (∀ url res, env.registry_url = some url → url ≠ "" →
      env.registry_response = some res → res ≠ [] → dictGet res engine = some [] →
      MLClientFactory.discover_service env engine = .error .indexError) ∧
    (∀ url res e rest, env.registry_url = some url → url ≠ "" →
      env.registry_response = some res → res ≠ [] →
      dictGet res engine = some (e :: rest) →
      MLClientFactory.discover_service env engine = .ok (some e)) := by
  refine ⟨?_, ?_, ?_, ?_, ?_, ?_, ?_⟩
  · intro hr; simp [MLClientFactory.discover_service, hr]
  · intro hr; simp [MLClientFactory.discover_service, hr]
  · intro url hr hne hres
    simp [MLClientFactory.discover_service, discover_services, hr, hne, hres]
  · intro url hr hne hres
    simp [MLClientFactory.discover_service, discover_services, hr, hne, hres]
  · intro url res hr hne hres hnil hget
    cases res with
    | nil => exact absurd rfl hnil
    | cons a l =>
      simp [MLClientFactory.discover_service, discover_services, hr, hne, hres, hget]
  · intro url res hr hne hres hnil hget
    cases res with
    | nil => exact absurd rfl hnil
    | cons a l =>
      simp [MLClientFactory.discover_service, discover_services, hr, hne, hres, hget]
  · intro url res e rest hr hne hres hnil hget
    cases res with
    | nil => exact absurd rfl hnil
    | cons a l =>
      simp [MLClientFactory.discover_service, discover_services, hr, hne, hres, hget]

theorem c3_amended_witness :
    MLClientFactory.discover_service
        ⟨some "http://r", some [("other", [⟨"h", "1"⟩]), ("demo", [⟨"10.0.0.5", "9000"⟩])],
          none, none⟩ "demo" = .ok (some ⟨"10.0.0.5", "9000"⟩) :=
  (c3_amended_locator
      ⟨some "http://r", some [("other", [⟨"h", "1"⟩]), ("demo", [⟨"10.0.0.5", "9000"⟩])],
        none, none⟩ "demo").2.2.2.2.2.2
    "http://r" [("other", [⟨"h", "1"⟩]), ("demo", [⟨"10.0.0.5", "9000"⟩])]
    ⟨"10.0.0.5", "9000"⟩ [] rfl (by decide) rfl (by decide) (by decide)

/-- C4 (spec-modelled registration step): for an engine resolvable by no
path — discovery yields no endpoint, neither fallback environment value is
set, and the engine has no entry in the local registration table —
`dispatch` fails with `ConfigurationError` rather than returning a handler
instance. -/
theorem c4_unresolvable_configuration_error (env : MLEnv)
    (table : List (String × HandlerClass)) (engine : String)
    (es : EngineStorage) (ms : ModelStorage) (kw : Kwargs)
    (hd : MLClientFactory.discover_service env engine = .ok none)
    (hh : env.ml_service_host = none) (hp : env.ml_service_port = none)
    (ht : table.find? (fun pr => pr.1 == engine) = none) :
    dispatch env table engine es ms kw = .error (.configurationError engine) := by
  simp only [dispatch, hd, hh, hp, ht]
  rfl

theorem c4_witness :
    dispatch ⟨none, none, none, none⟩ [("other", ⟨"OtherHandler", "other.module"⟩)]
        "demo" ⟨1⟩ ⟨2⟩ [] = .error (.configurationError "demo") :=
  c4_unresolvable_configuration_error ⟨none, none, none, none⟩
    [("other", ⟨"OtherHandler", "other.module"⟩)] "demo" ⟨1⟩ ⟨2⟩ []
    rfl rfl rfl (by decide)

/-- C8 counterexample: a remote dispatch (fallback host and port set)
returns the gRPC proxy, whose observable class identity is `MLClientGRPC`
— not the statically registered implementation's `DemoHandler` exposed by
the factory — refuting that local and remote paths expose the same
implementation identity. -/
theorem c8_counterexample_remote_identity :
    MLClientFactory.call ⟨⟨"DemoHandler", "demo.module"⟩, "demo"⟩
        ⟨none, none, some "10.0.0.5", some "9000"⟩ ⟨1⟩ ⟨2⟩ [] =
      .ok (.remoteH "10.0.0.5" "9000" 1 2 [("engine", "demo")]) ∧
    HandlerInstance.exposedClassName (.remoteH "10.0.0.5" "9000" 1 2 [("engine", "demo")]) =
      "MLClientGRPC" ∧
    MLClientFactory.name ⟨⟨"DemoHandler", "demo.module"⟩, "demo"⟩ = "DemoHandler" ∧
    ("MLClientGRPC" == "DemoHandler") = false := by
  refine ⟨by decide, rfl, rfl, by decide⟩

/-- C8 amended: the registered implementation's identity is exposed by the
factory object itself (whose `__name__`/`__module__` are copied from the
handler class) and by local-path instances; a remote dispatch instead
returns an `MLClientGRPC` proxy whose class and module identity are the
gRPC client's, though it does carry the engine name in its kwargs. -/
theorem c8_amended_identity (f : MLClientFactory) (env : MLEnv)
    (es : EngineStorage) (ms : ModelStorage) (kw : Kwargs) :
    f.name = f.handler_class.className ∧
    f.moduleName = f.handler_class.moduleName ∧
    (∀ inst, f.call env es ms kw = .ok inst → inst.isLocal = true →
      inst.exposedClassName = f.handler_class.className ∧
      inst.exposedModuleName = f.handler_class.moduleName) ∧
    (∀ inst, f.call env es ms kw = .ok inst → inst.isLocal = false →
      inst.exposedClassName = "MLClientGRPC" ∧
      kwargsGet inst.kwargsOf "engine" = some f.engine) := by
  have hcase : ∀ inst, f.call env es ms kw = .ok inst →
      inst = .localH f.handler_class es ms kw ∨
      ∃ h p, inst = .remoteH h p es.integration_id ms.predictor_id
        (kwargsSet kw "engine" f.engine) := by
    intro inst hcall
    cases hd : MLClientFactory.discover_service env f.engine with
    | error e =>
      simp only [MLClientFactory.call, hd] at hcall
      exact absurd hcall (by simp [Bind.bind, Except.bind])
    | ok si =>
      cases si with
      | some ep =>
        simp only [MLClientFactory.call, hd] at hcall
        refine Or.inr ⟨ep.host, ep.port, ?_⟩
        have : Except.ok (ε := PyError) (HandlerInstance.remoteH ep.host ep.port
            es.integration_id ms.predictor_id (kwargsSet kw "engine" f.engine)) =
            .ok inst := hcall
        cases this
        rfl
      | none =>
        cases hh : env.ml_service_host with
        | none =>
          simp only [MLClientFactory.call, hd, hh] at hcall
          have : Except.ok (ε := PyError) (HandlerInstance.localH f.handler_class
              es ms kw) = .ok inst := hcall
          cases this
          exact Or.inl rfl
        | some h =>
          cases hp : env.ml_service_port with
          | none =>
            simp only [MLClientFactory.call, hd, hh, hp] at hcall
            have : Except.ok (ε := PyError) (HandlerInstance.localH f.handler_class
                es ms kw) = .ok inst := hcall
            cases this
            exact Or.inl rfl
          | some p =>
            simp only [MLClientFactory.call, hd, hh, hp] at hcall
            have : Except.ok (ε := PyError) (HandlerInstance.remoteH h p
                es.integration_id ms.predictor_id (kwargsSet kw "engine" f.engine)) =
                .ok inst := hcall
            cases this
            exact Or.inr ⟨h, p, rfl⟩
  refine ⟨rfl, rfl, ?_, ?_⟩
  · intro inst hcall hlocal
    rcases hcase inst hcall with hl | ⟨h, p, hr⟩
    · subst hl; exact ⟨rfl, rfl⟩
    · subst hr; simp [HandlerInstance.isLocal] at hlocal
  · intro inst hcall hremote
    rcases hcase inst hcall with hl | ⟨h, p, hr⟩
    · subst hl; simp [HandlerInstance.isLocal] at hremote
    · subst hr
      exact ⟨rfl, kwargsGet_kwargsSet kw "engine" f.engine⟩

theorem c8_witness :
    HandlerInstance.exposedClassName (.remoteH "10.0.0.5" "9000" 1 2 [("engine", "demo")]) =
      "MLClientGRPC" ∧
    kwargsGet (HandlerInstance.kwargsOf
      (.remoteH "10.0.0.5" "9000" 1 2 [("engine", "demo")])) "engine" = some "demo" :=
  (c8_amended_identity ⟨⟨"DemoHandler", "demo.module"⟩, "demo"⟩
      ⟨none, none, some "10.0.0.5", some "9000"⟩ ⟨1⟩ ⟨2⟩ []).2.2.2
    (.remoteH "10.0.0.5" "9000" 1 2 [("engine", "demo")]) (by decide) rfl

/-- C9 counterexample: with a datahub that resolves no project (the
project is unknown), the predict endpoint responds 500 with message
`Project not found: proj`, not the 404 the claim states — the handler has
no 404 path at all. -/
theorem c9_counterexample_unknown_project_500 :
    ModelPredict.post (fun _ => none) "proj" "m".toList [] none =
      .err 500 "Project not found: proj" ∧
    (HttpResponse.statusCode
        (ModelPredict.post (fun _ => none) "proj" "m".toList [] none) == 404) = false ∧
    (HttpResponse.statusCode
        (ModelPredict.post (fun _ => none) "proj" "m".toList [] none) == 500) = true := by
  refine ⟨by decide, by decide, by decide⟩

/-- C9 amended: an unknown project and an unobtainable project datanode are
the same condition at this endpoint — `datahub.get` yielding nothing — and
in that case the response is 500 (`Project not found: {project}`), never
404; when the datanode exists the response is 200 with the predictions
converted to row-oriented records. -/
theorem c9_amended_predict_endpoint (hub : String → Option ProjectDatanode)
    (pn : String) (mn : List Char) (data : List RecordRow) (params : Option RecordRow) :
    (hub pn = none →
      ModelPredict.post hub pn mn data params =
        .err 500 ("Project not found: " ++ pn)) ∧
    (∀ dn, hub pn = some dn →
      ModelPredict.post hub pn mn data params =
        .ok (DataFrame.toDictRecords
          (dn.predictFn (parseModelVersion mn).1 data (parseModelVersion mn).2 params))) ∧
    (∀ dn, hub pn = some dn →
      HttpResponse.statusCode (ModelPredict.post hub pn mn data params) = 200) := by
  refine ⟨?_, ?_, ?_⟩
  · intro hnone
    simp [ModelPredict.post, hnone]
  · intro dn hsome
    simp [ModelPredict.post, hsome]
  · intro dn hsome
    simp [ModelPredict.post, hsome, HttpResponse.statusCode]

theorem c9_witness :
    ModelPredict.post (fun _ => none) "missing" "m".toList [] none =
      .err 500 "Project not found: missing" :=
  (c9_amended_predict_endpoint (fun _ => none) "missing" "m".toList [] none).1 rfl

/-- C10: the model name's trailing dot-separated segment is parsed out as
an integer version exactly when the name contains at least one dot and the
final segment is a non-empty run of digits; then the dispatched name is the
preceding segments rejoined by dots and the version is the final segment's
integer value; in every other case the name passes through unchanged with
no version. -/
theorem c10_version_suffix (name : List Char) :
    (('.' ∈ name ∧ (pySplitDot name).getLastD [] ≠ [] ∧
        ∀ c ∈ (pySplitDot name).getLastD [], c.isDigit = true) →
      parseModelVersion name =
        (List.intercalate ['.'] (pySplitDot name).dropLast,
          some (pyIntOfDigits ((pySplitDot name).getLastD [])))) ∧
    ((¬ '.' ∈ name ∨ ¬((pySplitDot name).getLastD [] ≠ [] ∧
        ∀ c ∈ (pySplitDot name).getLastD [], c.isDigit = true)) →
      parseModelVersion name = (name, none)) := by
  constructor
  · rintro ⟨hdot, hne, hdig⟩
    have hlen : 1 < (pySplitDot name).length :=
      (length_pySplitDot_gt_one_iff name).mpr hdot
    have hdigit : pyIsdigit ((pySplitDot name).getLastD []) = true :=
      (pyIsdigit_iff _).mpr ⟨hne, hdig⟩
    simp only [List.getLastD_eq_getLast?] at hdigit
    simp [parseModelVersion, List.getLastD_eq_getLast?, hlen, hdigit]
  · intro hfail
    rcases hfail with hnd | hnd
    · have hlen : ¬ 1 < (pySplitDot name).length :=
        fun hl => hnd ((length_pySplitDot_gt_one_iff name).mp hl)
      simp [parseModelVersion, hlen]
    · have hdigit : pyIsdigit ((pySplitDot name).getLastD []) = false := by
        cases hdg : pyIsdigit ((pySplitDot name).getLastD []) with
        | false => rfl
        | true => exact absurd ((pyIsdigit_iff _).mp hdg) hnd
      simp only [List.getLastD_eq_getLast?] at hdigit
      simp [parseModelVersion, List.getLastD_eq_getLast?, hdigit]

theorem c10_witness :
    parseModelVersion "my.model.2".toList = ("my.model".toList, some 2) ∧
    parseModelVersion "model2".toList = ("model2".toList, none) ∧
    parseModelVersion "model.x2".toList = ("model.x2".toList, none) :=
  ⟨(c10_version_suffix "my.model.2".toList).1 (by decide),
    (c10_version_suffix "model2".toList).2 (by decide),
    (c10_version_suffix "model.x2".toList).2 (by decide)⟩
